import Mathlib

/-!
The book service of `server.js` (ebook_API).

A shallow embedding of the six route handlers of `server.js` (create, list,
get-one, update, delete, download), of the validators attached to the create
route, of the upload file-naming hook and of the centralized error middleware.

The handlers are pure functions of
* the persisted collection (`List Book`),
* the request (`Request`),
* what the environment contributes to this request (`Env`: a storage failure,
  the identifier generated for a new document),
* the library behaviour that the source does not fix (`Deps`).

Every handler returns an `Outcome`: the HTTP response, the collection after the
request, and the storage calls it awaited.
-/

namespace EbookApi

/-! ## Values -/

/-- A text value as JavaScript sees it: not set, `null`, or a string. -/
inductive Val where
  | undefined
  | null
  | str (s : String)
deriving DecidableEq, Repr

/-- JavaScript truthiness of a text value (`!v` is its negation): only a
non-empty string is truthy. -/
def Val.truthy : Val → Bool
  | .str s => !s.data.isEmpty
  | _ => false

/-- An error object thrown inside a handler: `err.code` and `err.message`. -/
structure JsError where
  code : Option Nat
  message : String
deriving DecidableEq, Repr

/-! ## Data model (`bookSchema`, lines 20-26) -/

/-- A document of the `Book` collection. `_id` is the hexadecimal rendering of
the ObjectId; the five schema paths hold a string, `null`, or are not set. -/
structure Book where
  _id : String
  title : Val
  author : Val
  isbn : Val
  coverImage : Val
  file : Val
deriving DecidableEq, Repr

/-! ## Requests -/

/-- The text fields of `req.body` that the handlers read. -/
structure Fields where
  title : Val
  author : Val
  isbn : Val
deriving DecidableEq, Repr

/-- An uploaded file part: its original name and the value of `Date.now()` when
the upload middleware named it. -/
structure FilePart where
  originalname : String
  receivedAt : Nat
deriving DecidableEq, Repr

/-- What a file part under `coverImage` and under `file` (at most one each,
`maxCount: 1`) leaves in `req.files`. -/
structure Uploads where
  coverImage : Option FilePart
  file : Option FilePart
deriving DecidableEq, Repr

/-- A request as the handler of a route with `upload.fields` sees it. The upload
middleware only populates `req.files` for a `multipart/form-data` request; on
any other request (a JSON body parsed by `express.json()`, or no body) it calls
`next()` at once and `req.files` stays `undefined`: that is `files = none`. -/
structure Request where
  body : Fields
  files : Option Uploads
deriving DecidableEq, Repr

/-! ## Environment -/

/-- The contribution of the outside world to one request. `fault` is a failure
of the storage call other than the ones the model computes (connection lost,
server error); `newId` is the ObjectId that `new Book(...)` generates. -/
structure Env where
  fault : Option JsError
  newId : String
deriving DecidableEq, Repr

/-- Library behaviour that `server.js` relies on and does not determine.
* `castObjectId`: the cast of the `:id` path parameter to an ObjectId, which
  throws a `CastError` on a string that is not well-formed;
* `omitUndefined`: whether an `undefined` value in an update document is dropped
  (the path keeps its value) or written as `null`;
* `dirname`: the value of `__dirname`. -/
structure Deps where
  castObjectId : String → Except JsError String
  omitUndefined : Bool
  dirname : String

/-! ## Responses -/

/-- One entry of `errors.array()`. -/
structure FieldError where
  param : String
  msg : String
  value : Val
deriving DecidableEq, Repr

/-- The body handed to `res.json`, or the call `res.download(path, filename)`,
or the bytes that call ends up sending. -/
inductive Body where
  | record (b : Book)
  | records (bs : List Book)
  | errors (es : List FieldError)
  | error (msg : String)
  | message (msg : String)
  | download (path : String) (filename : String)
  | attachment (filename : String) (content : List Nat)
deriving DecidableEq, Repr

/-- An HTTP response: status code and body. -/
structure Response where
  status : Nat
  body : Body
deriving DecidableEq, Repr

/-- The storage calls of the `Book` model. -/
inductive StorageOp where
  | save
  | find
  | findById
  | findByIdAndUpdate
  | findByIdAndRemove
deriving DecidableEq, Repr

/-- The result of handling one request. -/
structure Outcome where
  response : Response
  db : List Book
  ops : List StorageOp
deriving DecidableEq, Repr

/-! ## Upload file naming (lines 31-38) -/

/-- The `filename` hook: `Date.now() + '-' + file.originalname`. -/
def storedName (timestamp : Nat) (originalName : String) : String :=
  toString timestamp ++ "-" ++ originalName

/-- The `filename` property of an uploaded file part. -/
def FilePart.filename (p : FilePart) : String :=
  storedName p.receivedAt p.originalname

/-- The expression `req.files[k] ? req.files[k][0].filename : null`. -/
def uploadedName : Option FilePart → Val
  | some p => .str p.filename
  | none => .null

/-! ## Validators of the create route (lines 50-52) -/

/-- The string a validator sees: `undefined` and `null` become the empty
string. -/
def Val.text : Val → String
  | .str s => s
  | _ => ""

/-- The check behind `notEmpty()`: the text has at least one character. -/
def notEmpty (v : Val) : Bool :=
  !v.text.data.isEmpty

/-- The characters matched by `\s` in a JavaScript regular expression. -/
def isJsSpace (c : Char) : Bool :=
  let n := c.toNat
  n == 9 || n == 10 || n == 11 || n == 12 || n == 13 || n == 32 || n == 160 ||
  n == 5760 || (8192 ≤ n && n ≤ 8202) || n == 8232 || n == 8233 || n == 8239 ||
  n == 8287 || n == 12288 || n == 65279

/-- The step `isbn.replace(/[\s-]+/g, '')` of the ISBN check. -/
def sanitizeIsbn (s : String) : List Char :=
  s.data.filter (fun c => !(isJsSpace c || c == '-'))

/-- The numeric value of a decimal digit character. -/
def digitValue (c : Char) : Nat :=
  c.toNat - 48

/-- The weighted sum `Σ (i + 1) * digit i` over the given characters, the first
of which has index `i`. -/
def isbn10Sum : Nat → List Char → Nat
  | _, [] => 0
  | i, c :: cs => (i + 1) * digitValue c + isbn10Sum (i + 1) cs

/-- The weighted sum `Σ factor[i % 2] * digit i` with `factor = [1, 3]`, the
first character having index `i`. -/
def isbn13Sum : Nat → List Char → Nat
  | _, [] => 0
  | i, c :: cs => (if i % 2 == 0 then 1 else 3) * digitValue c + isbn13Sum (i + 1) cs

/-- The ISBN-10 branch: nine digits followed by a digit or `X`, and
`Σ (i + 1) * digit i + 10 * last` divisible by 11, where a final `X` counts 10. -/
def isIsbn10 (cs : List Char) : Bool :=
  match cs.drop 9 with
  | [c] =>
    (cs.take 9).length == 9 && (cs.take 9).all Char.isDigit && (c.isDigit || c == 'X') &&
    (isbn10Sum 0 (cs.take 9) + (if c == 'X' then 10 * 10 else 10 * digitValue c)) % 11 == 0
  | _ => false

/-- The ISBN-13 branch: thirteen digits, the last one equal to
`(10 - checksum % 10) % 10` for the checksum of the first twelve. -/
def isIsbn13 (cs : List Char) : Bool :=
  match cs.drop 12 with
  | [c] =>
    (cs.take 12).length == 12 && (cs.take 12).all Char.isDigit && c.isDigit &&
    digitValue c == (10 - isbn13Sum 0 (cs.take 12) % 10) % 10
  | _ => false

/-- The check behind `isISBN()` with no version: ISBN-10 or ISBN-13 after
removing white space and hyphens. -/
def isISBN (s : String) : Bool :=
  isIsbn10 (sanitizeIsbn s) || isIsbn13 (sanitizeIsbn s)

/-- The chain `body('title').notEmpty().withMessage('Title is required')`. -/
def checkTitle (b : Fields) : List FieldError :=
  if notEmpty b.title then [] else [⟨"title", "Title is required", b.title⟩]

/-- The chain `body('author').notEmpty().withMessage('Author is required')`. -/
def checkAuthor (b : Fields) : List FieldError :=
  if notEmpty b.author then [] else [⟨"author", "Author is required", b.author⟩]

/-- The chain `body('isbn').optional().isISBN().withMessage('Invalid ISBN format')`:
`optional()` skips the check when the field is `undefined`. -/
def checkIsbn (b : Fields) : List FieldError :=
  match b.isbn with
  | .undefined => []
  | v => if isISBN v.text then [] else [⟨"isbn", "Invalid ISBN format", v⟩]

/-- The list `validationResult(req).array()` on the create route: the errors of
the three chains, in the order the chains are attached. -/
def validationResult (b : Fields) : List FieldError :=
  checkTitle b ++ checkAuthor b ++ checkIsbn b

/-! ## The `Book` model: storage calls -/

/-- The key under which the unique index on `isbn` files a document: a document
without the field is filed like one holding `null`. -/
def isbnKey : Val → Option String
  | .str s => some s
  | _ => none

/-- The `required: true` rule of the schema on a string path. -/
def requiredOk (v : Val) : Bool :=
  v.truthy

/-- The error thrown by the document validation that precedes a save. -/
def validationFailed : JsError :=
  ⟨none, "Book validation failed"⟩

/-- The duplicate-key error of the storage backend (`err.code === 11000`). -/
def duplicateKey : JsError :=
  ⟨some 11000, "E11000 duplicate key error"⟩

/-- The error thrown when a property of `req.files` is read while `req.files`
is `undefined`. -/
def filesUndefined : JsError :=
  ⟨none, "Cannot read properties of undefined (reading 'coverImage')"⟩

/-- The call `doc.save()`: validates the required paths, then inserts; the
insert is rejected with code 11000 when `_id` or the `isbn` key is taken. -/
def Book.save (env : Env) (db : List Book) (doc : Book) : Except JsError (List Book) :=
  if !(requiredOk doc.title && requiredOk doc.author) then .error validationFailed
  else match env.fault with
    | some e => .error e
    | none =>
      if db.any (fun b => b._id == doc._id || isbnKey b.isbn == isbnKey doc.isbn) then
        .error duplicateKey
      else .ok (db ++ [doc])

/-- The call `Book.find()`. -/
def Book.find (env : Env) (db : List Book) : Except JsError (List Book) :=
  match env.fault with
  | some e => .error e
  | none => .ok db

/-- The call `Book.findById(id)`. -/
def Book.findById (D : Deps) (env : Env) (db : List Book) (id : String) :
    Except JsError (Option Book) :=
  match D.castObjectId id with
  | .error e => .error e
  | .ok oid =>
    match env.fault with
    | some e => .error e
    | none => .ok (db.find? (fun b => b._id == oid))

/-- The update document `{ title, author, isbn, coverImage, file }`. -/
structure UpdateDoc where
  title : Val
  author : Val
  isbn : Val
  coverImage : Val
  file : Val
deriving DecidableEq, Repr

/-- The value of a path after `$set` with value `v`: a string or `null` is
written; `undefined` is dropped or written as `null`, as the driver decides. -/
def setPath (omitUndefined : Bool) (old : Val) (v : Val) : Val :=
  match v with
  | .str s => .str s
  | .null => .null
  | .undefined => if omitUndefined then old else .null

/-- The document that the update turns `b` into. -/
def applyUpdate (D : Deps) (b : Book) (u : UpdateDoc) : Book :=
  { _id := b._id
    title := setPath D.omitUndefined b.title u.title
    author := setPath D.omitUndefined b.author u.author
    isbn := setPath D.omitUndefined b.isbn u.isbn
    coverImage := setPath D.omitUndefined b.coverImage u.coverImage
    file := setPath D.omitUndefined b.file u.file }

/-- Replaces the first document whose `_id` is `oid` by `b2`. -/
def replaceFirst (oid : String) (b2 : Book) : List Book → List Book
  | [] => []
  | b :: bs => if b._id == oid then b2 :: bs else b :: replaceFirst oid b2 bs

/-- Removes the first document whose `_id` is `oid`. -/
def removeFirst (oid : String) : List Book → List Book
  | [] => []
  | b :: bs => if b._id == oid then bs else b :: removeFirst oid bs

/-- The call `Book.findByIdAndUpdate(id, u, { new: true })`: returns the
collection after the call and the updated document, or `null` when no document
has this `_id`. The write is rejected with code 11000 when another document
holds the new `isbn` key. -/
def Book.findByIdAndUpdate (D : Deps) (env : Env) (db : List Book) (id : String)
    (u : UpdateDoc) : Except JsError (List Book × Option Book) :=
  match D.castObjectId id with
  | .error e => .error e
  | .ok oid =>
    match env.fault with
    | some e => .error e
    | none =>
      match db.find? (fun b => b._id == oid) with
      | none => .ok (db, none)
      | some b =>
        let b2 := applyUpdate D b u
        if db.any (fun c => c._id != oid && isbnKey c.isbn == isbnKey b2.isbn) then
          .error duplicateKey
        else .ok (replaceFirst oid b2 db, some b2)

/-- The call `Book.findByIdAndRemove(id)`: returns the collection after the
call and the removed document, or `null` when no document has this `_id`. -/
def Book.findByIdAndRemove (D : Deps) (env : Env) (db : List Book) (id : String) :
    Except JsError (List Book × Option Book) :=
  match D.castObjectId id with
  | .error e => .error e
  | .ok oid =>
    match env.fault with
    | some e => .error e
    | none =>
      match db.find? (fun b => b._id == oid) with
      | none => .ok (db, none)
      | some b => .ok (removeFirst oid db, some b)

/-! ## `path.join` (POSIX) -/

/-- Splits a path at every `/`. -/
def splitSlash : List Char → List (List Char)
  | [] => [[]]
  | c :: cs =>
    match splitSlash cs with
    | [] => if c == '/' then [[], []] else [[c]]
    | seg :: segs => if c == '/' then [] :: seg :: segs else (c :: seg) :: segs

/-- One step of the segment walk of `normalizeString`; `acc` holds the kept
segments, last one first. -/
def normalizeStep (allowAboveRoot : Bool) (acc : List (List Char)) (seg : List Char) :
    List (List Char) :=
  if seg == [] || seg == ['.'] then acc
  else if seg == ['.', '.'] then
    match acc with
    | [] => if allowAboveRoot then [seg] else []
    | top :: rest =>
      if top == ['.', '.'] then (if allowAboveRoot then seg :: acc else acc) else rest
  else seg :: acc

/-- The function `path.normalize` on a POSIX path. -/
def normalizePath (path : List Char) : List Char :=
  if path == [] then ['.']
  else
    let isAbsolute := path.head? == some '/'
    let trailingSeparator := path.getLast? == some '/'
    let segs := ((splitSlash path).foldl (normalizeStep (!isAbsolute)) []).reverse
    let body := List.intercalate ['/'] segs
    if body == [] then
      (if isAbsolute then ['/'] else if trailingSeparator then ['.', '/'] else ['.'])
    else
      (if isAbsolute then ['/'] else []) ++ body ++ (if trailingSeparator then ['/'] else [])

/-- The function `path.join` on POSIX: the non-empty arguments joined by `/`,
then normalized. -/
def pathJoin (args : List String) : String :=
  match (args.filter fun a => !a.data.isEmpty).map String.data with
  | [] => "."
  | parts => String.mk (normalizePath (List.intercalate ['/'] parts))

/-! ## Route handlers -/

/-- The `catch` block of the create and the update route. -/
def catchWrite (err : JsError) : Response :=
  if err.code == some 11000 then ⟨400, .error "ISBN already exists"⟩
  else ⟨500, .error err.message⟩

/-- The `catch` block of the list, get-one, delete and download routes. -/
def catchRead (err : JsError) : Response :=
  ⟨500, .error err.message⟩

/-- The centralized error handling middleware (lines 159-162), reached by an
error passed to `next`. -/
def errorMiddleware (_err : JsError) : Response :=
  ⟨500, .error "Something went wrong!"⟩

/-- The document `new Book({ title, author, isbn, coverImage, file })` of the
create route (lines 61-65). -/
def newDocument (env : Env) (body : Fields) (files : Uploads) : Book :=
  let coverImage := uploadedName files.coverImage
  let file := uploadedName files.file
  ⟨env.newId, body.title, body.author, body.isbn, coverImage, file⟩

/-- The route `POST /books` (lines 47-75). -/
def createBook (env : Env) (db : List Book) (req : Request) : Outcome :=
  let errors := validationResult req.body
  if !errors.isEmpty then ⟨⟨400, .errors errors⟩, db, []⟩
  else
    match req.files with
    | none => ⟨catchWrite filesUndefined, db, []⟩
    | some files =>
      let newBook := newDocument env req.body files
      match Book.save env db newBook with
      | .ok db2 => ⟨⟨201, .record newBook⟩, db2, [.save]⟩
      | .error err => ⟨catchWrite err, db, [.save]⟩

/-- The route `GET /books` (lines 78-85). -/
def listBooks (env : Env) (db : List Book) : Outcome :=
  match Book.find env db with
  | .ok books => ⟨⟨200, .records books⟩, db, [.find]⟩
  | .error err => ⟨catchRead err, db, [.find]⟩

/-- The route `GET /books/:id` (lines 88-98). -/
def getBook (D : Deps) (env : Env) (db : List Book) (id : String) : Outcome :=
  match Book.findById D env db id with
  | .ok none => ⟨⟨404, .error "Book not found"⟩, db, [.findById]⟩
  | .ok (some book) => ⟨⟨200, .record book⟩, db, [.findById]⟩
  | .error err => ⟨catchRead err, db, [.findById]⟩

/-- The route `PUT /books/:id` (lines 101-128). -/
def updateBook (D : Deps) (env : Env) (db : List Book) (id : String) (req : Request) :
    Outcome :=
  match req.files with
  | none => ⟨catchWrite filesUndefined, db, []⟩
  | some files =>
    let coverImage := uploadedName files.coverImage
    let file := uploadedName files.file
    if !req.body.title.truthy || !req.body.author.truthy then
      ⟨⟨400, .error "Title and author are required"⟩, db, []⟩
    else
      match Book.findByIdAndUpdate D env db id
          ⟨req.body.title, req.body.author, req.body.isbn, coverImage, file⟩ with
      | .ok (db2, none) => ⟨⟨404, .error "Book not found"⟩, db2, [.findByIdAndUpdate]⟩
      | .ok (db2, some updatedBook) => ⟨⟨200, .record updatedBook⟩, db2, [.findByIdAndUpdate]⟩
      | .error err => ⟨catchWrite err, db, [.findByIdAndUpdate]⟩

/-- The route `DELETE /books/:id` (lines 131-141). -/
def deleteBook (D : Deps) (env : Env) (db : List Book) (id : String) : Outcome :=
  match Book.findByIdAndRemove D env db id with
  | .ok (db2, none) => ⟨⟨404, .error "Book not found"⟩, db2, [.findByIdAndRemove]⟩
  | .ok (db2, some _) => ⟨⟨200, .message "Book deleted successfully"⟩, db2, [.findByIdAndRemove]⟩
  | .error err => ⟨catchRead err, db, [.findByIdAndRemove]⟩

/-- The route `GET /books/:id/download` (lines 144-156), up to the call
`res.download(filePath, book.file)`. -/
def downloadBook (D : Deps) (env : Env) (db : List Book) (id : String) : Outcome :=
  match Book.findById D env db id with
  | .ok none => ⟨⟨404, .error "Book or file not found"⟩, db, [.findById]⟩
  | .ok (some book) =>
    if !book.file.truthy then ⟨⟨404, .error "Book or file not found"⟩, db, [.findById]⟩
    else
      ⟨⟨200, .download (pathJoin [D.dirname, "uploads", book.file.text]) book.file.text⟩,
        db, [.findById]⟩
  | .error err => ⟨catchRead err, db, [.findById]⟩

/-- The file store: the readable files, by path. -/
abbrev FileStore := List (String × List Nat)

/-- What the caller receives: `res.download` without a callback sends the bytes
of a readable file, and passes the error of an unreadable one to `next`, that
is to the centralized middleware. Any other response is final as it is. -/
def deliver (store : FileStore) (r : Response) : Response :=
  match r.body with
  | .download path filename =>
    match store.lookup path with
    | some content => ⟨200, .attachment filename content⟩
    | none => errorMiddleware ⟨none, "ENOENT: no such file or directory"⟩
  | _ => r

/-! ## Mutating requests as one step -/

/-- A request to one of the three routes that write to storage. -/
inductive Mutation where
  | create (req : Request)
  | update (id : String) (req : Request)
  | delete (id : String)
deriving DecidableEq, Repr

/-- Handles one mutating request. -/
def step (D : Deps) (env : Env) (db : List Book) : Mutation → Outcome
  | .create req => createBook env db req
  | .update id req => updateBook D env db id req
  | .delete id => deleteBook D env db id

/-! ## A concrete driver, for closed examples -/

/-- A hexadecimal digit. -/
def isHexDigit (c : Char) : Bool :=
  c.isDigit || ('a' ≤ c && c ≤ 'f') || ('A' ≤ c && c ≤ 'F')

/-- The cast of a string to an ObjectId: 24 hexadecimal digits, read without
regard to case; anything else is a `CastError`. -/
def castHex24 (s : String) : Except JsError String :=
  if s.data.length == 24 && s.data.all isHexDigit then .ok (String.mk (s.data.map Char.toLower))
  else .error ⟨none, "Cast to ObjectId failed for value \"" ++ s ++ "\" at path \"_id\" for model \"Book\""⟩

/-- A driver that writes `undefined` as `null`, with the server in `/srv/app`. -/
def sampleDeps : Deps :=
  ⟨castHex24, false, "/srv/app"⟩

/-- A driver that drops the `undefined` keys of an update document, with the
server in `/srv/app`. -/
def sampleDepsOmit : Deps :=
  ⟨castHex24, true, "/srv/app"⟩

/-- The identifier of the record of `sampleDb`. -/
def sampleId : String :=
  "64b0c0ffee64b0c0ffee64b1"

/-- A collection with one record, created without uploads. -/
def sampleDb : List Book :=
  [⟨sampleId, .str "Dune", .str "Herbert", .str "9780441013593", .null, .null⟩]

/-- An environment without storage failure. -/
def sampleEnv : Env :=
  ⟨none, "64b0c0ffee64b0c0ffee64b0"⟩

/-! ## Predicates of the specification -/

/-- A text field that is missing or empty. -/
def Val.blank (v : Val) : Prop :=
  v = .undefined ∨ v = .null ∨ v = .str ""

/-- The `isbn` of a record is absent or a syntactically valid ISBN. -/
def IsbnOk (b : Book) : Prop :=
  b.isbn = .undefined ∨ b.isbn = .null ∨ ∃ s, b.isbn = .str s ∧ isISBN s = true

/-- The `title` and the `author` of a record are non-empty strings. -/
def NamesOk (b : Book) : Prop :=
  (∃ t, b.title = .str t ∧ t ≠ "") ∧ (∃ a, b.author = .str a ∧ a ≠ "")

/-! ## Upload file naming is injective -/

/-- A decimal digit is never printed as a hyphen. -/
theorem digitChar_ne_dash (k : Nat) (h : k < 10) : Nat.digitChar k ≠ '-' := by
  interval_cases k <;> decide

/-- Distinct decimal digits are printed differently. -/
theorem digitChar_inj (a b : Nat) (ha : a < 10) (hb : b < 10)
    (h : Nat.digitChar a = Nat.digitChar b) : a = b := by
  interval_cases a <;> interval_cases b <;> first | rfl | (exfalso; revert h; decide)

/-- With enough fuel the printing loop yields the decimal digits, most significant first. -/
theorem toDigitsCore_eq_digits (fuel : Nat) :
    ∀ (n : Nat) (ds : List Char), 0 < n → n < fuel →
      Nat.toDigitsCore 10 fuel n ds = ((Nat.digits 10 n).reverse.map Nat.digitChar) ++ ds := by
  induction fuel with
  | zero => intro n ds _ h; omega
  | succ fuel ih =>
    intro n ds hn hlt
    rw [Nat.digits_def' (by norm_num) hn]
    simp only [Nat.toDigitsCore]
    by_cases h0 : n / 10 = 0
    · simp [h0]
    · rw [if_neg h0, ih (n / 10) _ (Nat.pos_of_ne_zero h0) (by omega)]
      simp

/-- The printed form of a positive number is its digit list, reversed. -/
theorem toDigits_pos (n : Nat) (hn : 0 < n) :
    Nat.toDigits 10 n = (Nat.digits 10 n).reverse.map Nat.digitChar := by
  unfold Nat.toDigits
  rw [toDigitsCore_eq_digits (n + 1) n [] hn (by omega)]
  simp

/-- Zero is printed as a single `0`. -/
theorem toDigits_zero : Nat.toDigits 10 0 = ['0'] := by decide

/-- The printed form of a number holds no hyphen. -/
theorem toDigits_no_dash (n : Nat) : '-' ∉ Nat.toDigits 10 n := by
  rcases Nat.eq_zero_or_pos n with h | h
  · subst h; decide
  · rw [toDigits_pos n h]
    intro hmem
    simp only [List.mem_map, List.mem_reverse] at hmem
    obtain ⟨d, hd, hc⟩ := hmem
    exact digitChar_ne_dash d (Nat.digits_lt_base (by norm_num) hd) hc

/-- Printing digit lists is injective. -/
theorem map_digitChar_inj : ∀ (l1 l2 : List Nat), (∀ d ∈ l1, d < 10) → (∀ d ∈ l2, d < 10) →
    l1.map Nat.digitChar = l2.map Nat.digitChar → l1 = l2
  | [], [], _, _, _ => rfl
  | [], _ :: _, _, _, h => by simp at h
  | _ :: _, [], _, _, h => by simp at h
  | a :: l1, b :: l2, h1, h2, h => by
    simp only [List.map_cons, List.cons.injEq] at h
    have hab := digitChar_inj a b (h1 a (by simp)) (h2 b (by simp)) h.1
    have := map_digitChar_inj l1 l2 (fun d hd => h1 d (by simp [hd])) (fun d hd => h2 d (by simp [hd])) h.2
    rw [hab, this]

/-- A positive number is not printed as `0`. -/
theorem toDigits_pos_ne_zero (n : Nat) (hn : 0 < n) : Nat.toDigits 10 n ≠ ['0'] := by
  rw [toDigits_pos n hn]
  intro h
  have hne : Nat.digits 10 n ≠ [] := Nat.digits_ne_nil_iff_ne_zero.mpr (by omega)
  have hlast := @Nat.getLast_digit_ne_zero 10 n (by omega)
  have h2 : ((Nat.digits 10 n).reverse).map Nat.digitChar = [0].map Nat.digitChar := by
    rw [h]; rfl
  have h3 := map_digitChar_inj _ _ (fun d hd => Nat.digits_lt_base (by norm_num) (List.mem_reverse.mp hd))
    (by simp) h2
  have h4 : Nat.digits 10 n = [0] := by
    have := congrArg List.reverse h3
    simpa using this
  apply hlast
  simp [h4]

/-- Printing a number in decimal is injective. -/
theorem toDigits_inj (n m : Nat) (h : Nat.toDigits 10 n = Nat.toDigits 10 m) : n = m := by
  rcases Nat.eq_zero_or_pos n with hn | hn <;> rcases Nat.eq_zero_or_pos m with hm | hm
  · omega
  · subst hn; rw [toDigits_zero] at h; exact absurd h.symm (toDigits_pos_ne_zero m hm)
  · subst hm; rw [toDigits_zero] at h; exact absurd h (toDigits_pos_ne_zero n hn)
  · rw [toDigits_pos n hn, toDigits_pos m hm] at h
    have h3 := map_digitChar_inj _ _
      (fun d hd => Nat.digits_lt_base (by norm_num) (List.mem_reverse.mp hd))
      (fun d hd => Nat.digits_lt_base (by norm_num) (List.mem_reverse.mp hd)) h
    have h4 : Nat.digits 10 n = Nat.digits 10 m := by
      have := congrArg List.reverse h3
      simpa using this
    exact Nat.digits_inj_iff.mp h4

/-- Two lists split at the first occurrence of a separator agree on both sides. -/
theorem append_sep_inj (a : Char) : ∀ (l1 l2 r1 r2 : List Char), a ∉ l1 → a ∉ l2 →
    l1 ++ a :: r1 = l2 ++ a :: r2 → l1 = l2 ∧ r1 = r2
  | [], [], r1, r2, _, _, h => by simpa using h
  | [], b :: l2, _, _, _, h2, h => by
    simp only [List.nil_append, List.cons_append, List.cons.injEq] at h
    exact absurd (by simp [h.1]) h2
  | b :: l1, [], _, _, h1, _, h => by
    simp only [List.nil_append, List.cons_append, List.cons.injEq] at h
    exact absurd (by simp [h.1]) h1
  | b :: l1, c :: l2, r1, r2, h1, h2, h => by
    simp only [List.cons_append, List.cons.injEq] at h
    have := append_sep_inj a l1 l2 r1 r2 (fun hm => h1 (by simp [hm])) (fun hm => h2 (by simp [hm])) h.2
    exact ⟨by rw [h.1, this.1], this.2⟩

/-- The characters of a stored name. -/
theorem storedName_data (t : Nat) (n : String) :
    (storedName t n).data = Nat.toDigits 10 t ++ '-' :: n.data := by
  simp [storedName, toString, Nat.repr, String.append, List.asString]
  
/-- C10: the stored name `decimal(timestamp) ++ "-" ++ originalName` determines
both the timestamp and the original name, also when the original name itself
holds digits and hyphens. -/
theorem storedName_injective (t1 t2 : Nat) (n1 n2 : String)
    (h : storedName t1 n1 = storedName t2 n2) : t1 = t2 ∧ n1 = n2 := by
  have hd := congrArg String.data h
  rw [storedName_data, storedName_data] at hd
  have := append_sep_inj '-' _ _ _ _ (toDigits_no_dash t1) (toDigits_no_dash t2) hd
  exact ⟨toDigits_inj t1 t2 this.1, String.ext this.2⟩

/-- An instance of `storedName_injective` on a name that holds digits and a hyphen. -/
theorem storedName_injective_witness :
    storedName 17 "2-a.pdf" = storedName 17 "2-a.pdf" ∧ (17 = 17 ∧ "2-a.pdf" = "2-a.pdf") :=
  ⟨rfl, storedName_injective 17 17 "2-a.pdf" "2-a.pdf" rfl⟩

/-! ## Basic facts about text values -/

/-- A string without characters is the empty string. -/
theorem data_eq_nil_iff (s : String) : s.data = [] ↔ s = "" := by
  constructor
  · intro h; exact String.ext h
  · intro h; subst h; rfl

/-- A blank field is exactly one that is not truthy. -/
theorem truthy_eq_false_iff (v : Val) : v.truthy = false ↔ v.blank := by
  cases v with
  | undefined => simp [Val.truthy, Val.blank]
  | null => simp [Val.truthy, Val.blank]
  | str s => simp [Val.truthy, Val.blank, data_eq_nil_iff]

/-- A truthy field is a non-empty string. -/
theorem truthy_iff (v : Val) : v.truthy = true ↔ ∃ s, v = .str s ∧ s ≠ "" := by
  cases v with
  | undefined => simp [Val.truthy]
  | null => simp [Val.truthy]
  | str s => simp [Val.truthy, data_eq_nil_iff]

/-- The validator `notEmpty` fails exactly on a blank field. -/
theorem notEmpty_eq_false_iff (v : Val) : notEmpty v = false ↔ v.blank := by
  cases v with
  | undefined => simp [notEmpty, Val.text, Val.blank]
  | null => simp [notEmpty, Val.text, Val.blank]
  | str s => simp [notEmpty, Val.text, Val.blank, data_eq_nil_iff]

/-- The validator `notEmpty` agrees with truthiness. -/
theorem notEmpty_eq_truthy (v : Val) : notEmpty v = v.truthy := by
  cases v <;> simp [notEmpty, Val.text, Val.truthy]

/-- The title chain reports an error exactly on a blank title. -/
theorem checkTitle_eq (b : Fields) :
    checkTitle b = if b.title.truthy then [] else [⟨"title", "Title is required", b.title⟩] := by
  simp [checkTitle, notEmpty_eq_truthy]

/-- The author chain reports an error exactly on a blank author. -/
theorem checkAuthor_eq (b : Fields) :
    checkAuthor b = if b.author.truthy then [] else [⟨"author", "Author is required", b.author⟩] := by
  simp [checkAuthor, notEmpty_eq_truthy]

/-- The create route reports no validation error only when title and author
are truthy and the `isbn` chain passes. -/
theorem validationResult_nil_iff (b : Fields) :
    validationResult b = [] ↔
      b.title.truthy = true ∧ b.author.truthy = true ∧ checkIsbn b = [] := by
  simp only [validationResult, checkTitle_eq, checkAuthor_eq, List.append_eq_nil]
  cases b.title.truthy <;> cases b.author.truthy <;> simp

/-- When the `isbn` chain passes, the field is not set or a valid ISBN. -/
theorem checkIsbn_nil (b : Fields) (h : checkIsbn b = []) :
    b.isbn = .undefined ∨ ∃ s, b.isbn = .str s ∧ isISBN s = true := by
  unfold checkIsbn at h
  cases hb : b.isbn with
  | undefined => exact Or.inl rfl
  | null =>
    have h0 : isISBN "" = false := by decide
    rw [hb] at h; simp [Val.text, h0] at h
  | str s =>
    rw [hb] at h
    right
    refine ⟨s, rfl, ?_⟩
    by_cases hs : isISBN s = true
    · exact hs
    · simp [Val.text, hs] at h

/-! ## C1: a create request with a blank title or author -/

/-- C1: a create request whose title or author is missing or empty is answered
with status 400 and a non-empty list of validation errors; the collection is
left as it was and no storage call is made. -/
theorem create_blank_rejected (env : Env) (db : List Book) (req : Request)
    (h : req.body.title.blank ∨ req.body.author.blank) :
    (createBook env db req).response.status = 400 ∧
    (∃ es, es ≠ [] ∧ (createBook env db req).response.body = .errors es) ∧
    (createBook env db req).db = db ∧
    (createBook env db req).ops = [] := by
  have hne : validationResult req.body ≠ [] := by
    intro hnil
    rw [validationResult_nil_iff] at hnil
    rcases h with h | h
    · rw [← truthy_eq_false_iff] at h; rw [h] at hnil; simp at hnil
    · rw [← truthy_eq_false_iff] at h; rw [h] at hnil; simp at hnil
  have hemp : (validationResult req.body).isEmpty = false := by
    cases hv : validationResult req.body with
    | nil => exact absurd hv hne
    | cons e es => rfl
  simp only [createBook, hemp]
  exact ⟨rfl, ⟨_, hne, rfl⟩, rfl, rfl⟩

/-- An instance of `create_blank_rejected`: a multipart create request with an
uploaded file and no title. -/
theorem create_blank_rejected_witness :
    (createBook ⟨none, "64b0c0ffee64b0c0ffee64b0"⟩ []
        ⟨⟨.undefined, .str "Herbert", .undefined⟩, some ⟨none, some ⟨"dune.epub", 1700000000000⟩⟩⟩).response.status = 400 ∧
    (createBook ⟨none, "64b0c0ffee64b0c0ffee64b0"⟩ []
        ⟨⟨.undefined, .str "Herbert", .undefined⟩, some ⟨none, some ⟨"dune.epub", 1700000000000⟩⟩⟩).db = [] :=
  have h := create_blank_rejected ⟨none, "64b0c0ffee64b0c0ffee64b0"⟩ []
    ⟨⟨.undefined, .str "Herbert", .undefined⟩, some ⟨none, some ⟨"dune.epub", 1700000000000⟩⟩⟩
    (Or.inl (Or.inl rfl))
  ⟨h.1, h.2.2.1⟩

/-! ## C2: the get-one route -/

/-- The lookup by identifier finds nothing exactly when the cast succeeds, the
backend answers, and no document carries the identifier. -/
theorem findById_none_iff (D : Deps) (env : Env) (db : List Book) (id : String) :
    Book.findById D env db id = .ok none ↔
      ∃ oid, D.castObjectId id = .ok oid ∧ env.fault = none ∧ ∀ b ∈ db, b._id ≠ oid := by
  unfold Book.findById
  cases hc : D.castObjectId id with
  | error e => simp
  | ok oid =>
    cases hf : env.fault with
    | some e => simp
    | none => simp [List.find?_eq_none]

/-- C2, counterexample: an identifier that the cast rejects as malformed is
answered with status 500, not 404. -/
theorem get_malformed_id_is_500 :
    sampleDeps.castObjectId "nope" =
      .error ⟨none, "Cast to ObjectId failed for value \"nope\" at path \"_id\" for model \"Book\""⟩ ∧
    (getBook sampleDeps ⟨none, "64b0c0ffee64b0c0ffee64b0"⟩ [] "nope").response.status = 500 ∧
    (getBook sampleDeps ⟨none, "64b0c0ffee64b0c0ffee64b0"⟩ [] "nope").response.status ≠ 404 := by
  refine ⟨rfl, by decide, by decide⟩

/-- C2, amended: the get-one route answers 404 exactly when the cast of the
identifier succeeds, the backend answers and no record carries the identifier;
a malformed identifier (the cast throws) is answered 500 with the message of the
cast error, like every other failure of the lookup, and 500 is answered only
when the lookup fails; a record found is answered 200; the collection is never
changed. -/
theorem getBook_response (D : Deps) (env : Env) (db : List Book) (id : String) :
    ((getBook D env db id).response.status = 404 ↔
      ∃ oid, D.castObjectId id = .ok oid ∧ env.fault = none ∧ ∀ b ∈ db, b._id ≠ oid) ∧
    (∀ e, D.castObjectId id = .error e →
      (getBook D env db id).response = ⟨500, .error e.message⟩) ∧
    (∀ e, Book.findById D env db id = .error e →
      (getBook D env db id).response = ⟨500, .error e.message⟩) ∧
    (∀ b, Book.findById D env db id = .ok (some b) →
      (getBook D env db id).response = ⟨200, .record b⟩) ∧
    ((getBook D env db id).response.status = 500 ↔
      ∃ e, Book.findById D env db id = .error e) ∧
    (getBook D env db id).db = db := by
  rw [← findById_none_iff]
  refine ⟨?_, ?_, ?_, ?_, ?_, ?_⟩
  · unfold getBook
    cases h : Book.findById D env db id with
    | error e => simp [catchRead]
    | ok r => cases r <;> simp
  · intro e he
    simp [getBook, Book.findById, he, catchRead]
  · intro e he
    simp [getBook, he, catchRead]
  · intro b hb
    simp [getBook, hb]
  · unfold getBook
    cases h : Book.findById D env db id with
    | error e => simp [catchRead]
    | ok r => cases r <;> simp
  · unfold getBook
    cases h : Book.findById D env db id with
    | error e => rfl
    | ok r => cases r <;> rfl

/-- An instance of `getBook_response` at a malformed identifier. -/
theorem getBook_response_witness :
    (getBook sampleDeps ⟨none, "64b0c0ffee64b0c0ffee64b0"⟩ [] "nope").response =
      ⟨500, .error "Cast to ObjectId failed for value \"nope\" at path \"_id\" for model \"Book\""⟩ :=
  (getBook_response sampleDeps ⟨none, "64b0c0ffee64b0c0ffee64b0"⟩ [] "nope").2.1
    ⟨none, "Cast to ObjectId failed for value \"nope\" at path \"_id\" for model \"Book\""⟩ rfl

/-! ## C3: what a 500 response carries -/

/-- C3, counterexample: two runs of the list route that differ only in the
message of the storage failure are both answered 500, with different bodies. -/
theorem internal_error_body_leaks_message :
    (listBooks ⟨some ⟨none, "connect ECONNREFUSED 127.0.0.1:27017"⟩, "64b0c0ffee64b0c0ffee64b0"⟩ []).response.status = 500 ∧
    (listBooks ⟨some ⟨none, "pool destroyed"⟩, "64b0c0ffee64b0c0ffee64b0"⟩ []).response.status = 500 ∧
    (listBooks ⟨some ⟨none, "connect ECONNREFUSED 127.0.0.1:27017"⟩, "64b0c0ffee64b0c0ffee64b0"⟩ []).response.body ≠
      (listBooks ⟨some ⟨none, "pool destroyed"⟩, "64b0c0ffee64b0c0ffee64b0"⟩ []).response.body := by
  refine ⟨by decide, by decide, by decide⟩

/-- C3, amended: in each of the six routes a failure `err` thrown by the storage
call (for create and update: one whose code is not 11000) is answered with
status 500 and the body `error: err.message`, the message of that failure; the
fixed message `Something went wrong!` is sent only by the centralized
middleware, which is where an unreadable blob of a download ends. -/
theorem storage_failure_response (err : JsError) :
    (∀ env db, Book.find env db = .error err →
      (listBooks env db).response = ⟨500, .error err.message⟩) ∧
    (∀ D env db id, Book.findById D env db id = .error err →
      (getBook D env db id).response = ⟨500, .error err.message⟩) ∧
    (∀ D env db id, Book.findByIdAndRemove D env db id = .error err →
      (deleteBook D env db id).response = ⟨500, .error err.message⟩) ∧
    (∀ D env db id, Book.findById D env db id = .error err →
      (downloadBook D env db id).response = ⟨500, .error err.message⟩) ∧
    (∀ env db req files, validationResult req.body = [] → req.files = some files →
      Book.save env db (newDocument env req.body files) = .error err → err.code ≠ some 11000 →
      (createBook env db req).response = ⟨500, .error err.message⟩) ∧
    (∀ D env db id req files, req.files = some files →
      req.body.title.truthy = true → req.body.author.truthy = true →
      Book.findByIdAndUpdate D env db id
        ⟨req.body.title, req.body.author, req.body.isbn, uploadedName files.coverImage,
          uploadedName files.file⟩ = .error err →
      err.code ≠ some 11000 →
      (updateBook D env db id req).response = ⟨500, .error err.message⟩) ∧
    errorMiddleware err = ⟨500, .error "Something went wrong!"⟩ ∧
    (∀ (store : FileStore) path filename, store.lookup path = none →
      deliver store ⟨200, .download path filename⟩ = ⟨500, .error "Something went wrong!"⟩) := by
  refine ⟨?_, ?_, ?_, ?_, ?_, ?_, rfl, ?_⟩
  · intro env db h; simp [listBooks, h, catchRead]
  · intro D env db id h; simp [getBook, h, catchRead]
  · intro D env db id h; simp [deleteBook, h, catchRead]
  · intro D env db id h; simp [downloadBook, h, catchRead]
  · intro env db req files hv hf hs hc
    simp [createBook, hv, hf, hs, catchWrite, hc]
  · intro D env db id req files hf ht ha hu hc
    simp [updateBook, hf, ht, ha, hu, catchWrite, hc]
  · intro store path filename h
    simp [deliver, h, errorMiddleware]

/-- An instance of `storage_failure_response`: the list route with the backend
unreachable. -/
theorem storage_failure_response_witness :
    (listBooks ⟨some ⟨none, "pool destroyed"⟩, "64b0c0ffee64b0c0ffee64b0"⟩ []).response =
      ⟨500, .error "pool destroyed"⟩ :=
  (storage_failure_response ⟨none, "pool destroyed"⟩).1 _ _ rfl

/-! ## C7: the body of a validation error -/

/-- C7, counterexample: a multipart update request without a title is answered
400 with the single message `Title and author are required`, not with an
`errors` list. -/
theorem update_blank_body_is_message :
    (updateBook sampleDeps ⟨none, "64b0c0ffee64b0c0ffee64b0"⟩ [] "64b0c0ffee64b0c0ffee64b1"
        ⟨⟨.undefined, .str "Herbert", .undefined⟩, some ⟨none, none⟩⟩).response =
      ⟨400, .error "Title and author are required"⟩ ∧
    ¬ ∃ es, (updateBook sampleDeps ⟨none, "64b0c0ffee64b0c0ffee64b0"⟩ [] "64b0c0ffee64b0c0ffee64b1"
        ⟨⟨.undefined, .str "Herbert", .undefined⟩, some ⟨none, none⟩⟩).response.body = .errors es := by
  refine ⟨by decide, ?_⟩
  rintro ⟨es, h⟩
  have h2 : (updateBook sampleDeps ⟨none, "64b0c0ffee64b0c0ffee64b0"⟩ [] "64b0c0ffee64b0c0ffee64b1"
        ⟨⟨.undefined, .str "Herbert", .undefined⟩, some ⟨none, none⟩⟩).response.body =
      .error "Title and author are required" := by decide
  rw [h2] at h
  cases h

/-- The entries of the validation result name `title`, `author`, `isbn`, each
at most once and in this order. -/
theorem validationResult_params (b : Fields) :
    ((validationResult b).map FieldError.param).Sublist ["title", "author", "isbn"] := by
  have h1 : ((checkTitle b).map FieldError.param).Sublist ["title"] := by
    unfold checkTitle; split <;> simp
  have h2 : ((checkAuthor b).map FieldError.param).Sublist ["author"] := by
    unfold checkAuthor; split <;> simp
  have h3 : ((checkIsbn b).map FieldError.param).Sublist ["isbn"] := by
    unfold checkIsbn
    split
    · simp
    · split <;> simp
  have := (h1.append h2).append h3
  simpa [validationResult] using this

/-- C7, amended: a validation error of the create route is answered 400 with the
body `errors: [...]` holding exactly one entry per violated rule (blank title,
blank author, `isbn` present and not a valid ISBN), in this order, so both
entries when title and author are blank; a multipart update request with a blank
title or author is answered 400 with the single message
`error: Title and author are required`. -/
theorem validation_error_bodies :
    (∀ env db req, validationResult req.body ≠ [] →
      (createBook env db req).response = ⟨400, .errors (validationResult req.body)⟩) ∧
    (∀ b : Fields,
      (⟨"title", "Title is required", b.title⟩ ∈ validationResult b ↔ b.title.blank) ∧
      (⟨"author", "Author is required", b.author⟩ ∈ validationResult b ↔ b.author.blank) ∧
      (⟨"isbn", "Invalid ISBN format", b.isbn⟩ ∈ validationResult b ↔
        (b.isbn ≠ .undefined ∧ isISBN b.isbn.text = false)) ∧
      ((validationResult b).map FieldError.param).Sublist ["title", "author", "isbn"]) ∧
    (∀ b : Fields, b.title.blank → b.author.blank →
      ∃ rest, validationResult b =
        ⟨"title", "Title is required", b.title⟩ :: ⟨"author", "Author is required", b.author⟩ :: rest) ∧
    (∀ D env db id req files, req.files = some files →
      (req.body.title.blank ∨ req.body.author.blank) →
      (updateBook D env db id req).response = ⟨400, .error "Title and author are required"⟩) := by
  refine ⟨?_, ?_, ?_, ?_⟩
  · intro env db req hne
    have hemp : (validationResult req.body).isEmpty = false := by
      cases hv : validationResult req.body with
      | nil => exact absurd hv hne
      | cons e es => rfl
    simp [createBook, hemp]
  · intro b
    have hI : checkIsbn b = if b.isbn ≠ .undefined ∧ isISBN b.isbn.text = false then
        [⟨"isbn", "Invalid ISBN format", b.isbn⟩] else [] := by
      unfold checkIsbn
      cases hb : b.isbn with
      | undefined => simp
      | null => cases h : isISBN (Val.null).text <;> simp [h]
      | str s => cases h : isISBN (Val.str s).text <;> simp [h]
    refine ⟨?_, ?_, ?_, validationResult_params b⟩
    · rw [← truthy_eq_false_iff]
      simp only [validationResult, checkTitle_eq, checkAuthor_eq, hI]
      cases b.title.truthy <;> cases b.author.truthy <;>
        by_cases h : (b.isbn ≠ .undefined ∧ isISBN b.isbn.text = false) <;> simp [h]
    · rw [← truthy_eq_false_iff]
      simp only [validationResult, checkTitle_eq, checkAuthor_eq, hI]
      cases b.title.truthy <;> cases b.author.truthy <;>
        by_cases h : (b.isbn ≠ .undefined ∧ isISBN b.isbn.text = false) <;> simp [h]
    · simp only [validationResult, checkTitle_eq, checkAuthor_eq, hI]
      cases b.title.truthy <;> cases b.author.truthy <;>
        by_cases h : (b.isbn ≠ .undefined ∧ isISBN b.isbn.text = false) <;> simp [h]
  · intro b ht ha
    rw [← truthy_eq_false_iff] at ht ha
    exact ⟨checkIsbn b, by simp [validationResult, checkTitle_eq, checkAuthor_eq, ht, ha]⟩
  · intro D env db id req files hf h
    have : (!req.body.title.truthy || !req.body.author.truthy) = true := by
      rcases h with h | h <;> rw [← truthy_eq_false_iff] at h <;> simp [h]
    simp [updateBook, hf, this]

/-- An instance of `validation_error_bodies`: a create request with neither
title nor author gets both entries. -/
theorem validation_error_bodies_witness :
    (createBook ⟨none, "64b0c0ffee64b0c0ffee64b0"⟩ []
        ⟨⟨.undefined, .str "", .undefined⟩, some ⟨none, none⟩⟩).response =
      ⟨400, .errors [⟨"title", "Title is required", .undefined⟩,
        ⟨"author", "Author is required", .str ""⟩]⟩ :=
  validation_error_bodies.1 ⟨none, "64b0c0ffee64b0c0ffee64b0"⟩ []
    ⟨⟨.undefined, .str "", .undefined⟩, some ⟨none, none⟩⟩ (by decide)

/-! ## C9: the download route -/

/-- C9: when the lookup of a download request does not fail, the answer is 404
exactly if no record matches or the `file` of the record is null, not set or
empty; otherwise the route calls `res.download` on the path
`uploads/<record.file>` under the server directory with `record.file` as the
download name, which sends the bytes of that blob when the file store holds it. -/
theorem download_response (D : Deps) (env : Env) (db : List Book) (id : String)
    (r : Option Book) (h : Book.findById D env db id = .ok r) :
    ((downloadBook D env db id).response.status = 404 ↔
      (r = none ∨ ∃ b, r = some b ∧ b.file.blank)) ∧
    (∀ b f, r = some b → b.file = .str f → f ≠ "" →
      (downloadBook D env db id).response =
        ⟨200, .download (pathJoin [D.dirname, "uploads", f]) f⟩ ∧
      ∀ (store : FileStore) content,
        store.lookup (pathJoin [D.dirname, "uploads", f]) = some content →
        deliver store (downloadBook D env db id).response = ⟨200, .attachment f content⟩) := by
  constructor
  · cases r with
    | none => simp [downloadBook, h]
    | some b =>
      cases hb : b.file.truthy with
      | false =>
        have := (truthy_eq_false_iff b.file).mp hb
        simp [downloadBook, h, hb, this]
      | true =>
        have hnb : ¬ b.file.blank := by
          rw [← truthy_eq_false_iff, hb]; simp
        simp [downloadBook, h, hb, hnb]
  · intro b f hr hf hne
    subst hr
    have ht : b.file.truthy = true := (truthy_iff b.file).mpr ⟨f, hf, hne⟩
    have hresp : (downloadBook D env db id).response =
        ⟨200, .download (pathJoin [D.dirname, "uploads", f]) f⟩ := by
      rw [hf] at ht
      simp [downloadBook, h, ht, hf, Val.text]
    refine ⟨hresp, ?_⟩
    intro store content hs
    rw [hresp]
    simp [deliver, hs]

/-- An instance of `download_response`: a record with a stored file. -/
theorem download_response_witness :
    (downloadBook sampleDeps ⟨none, "64b0c0ffee64b0c0ffee64b0"⟩
        [⟨"64b0c0ffee64b0c0ffee64b1", .str "Dune", .str "Herbert", .undefined, .null,
          .str "1700000000000-dune.epub"⟩] "64b0c0ffee64b0c0ffee64b1").response =
      ⟨200, .download "/srv/app/uploads/1700000000000-dune.epub" "1700000000000-dune.epub"⟩ :=
  ((download_response sampleDeps ⟨none, "64b0c0ffee64b0c0ffee64b0"⟩
        [⟨"64b0c0ffee64b0c0ffee64b1", .str "Dune", .str "Herbert", .undefined, .null,
          .str "1700000000000-dune.epub"⟩] "64b0c0ffee64b0c0ffee64b1"
        (some ⟨"64b0c0ffee64b0c0ffee64b1", .str "Dune", .str "Herbert", .undefined, .null,
          .str "1700000000000-dune.epub"⟩) rfl).2 _ "1700000000000-dune.epub" rfl rfl
        (by decide)).1

/-! ## Facts about the storage calls -/

/-- A successful save appends the document; it requires a truthy title and
author, a backend that answers, and an `_id` that no document carries. -/
theorem save_ok (env : Env) (db : List Book) (doc : Book) (db2 : List Book)
    (h : Book.save env db doc = .ok db2) :
    db2 = db ++ [doc] ∧ (∀ b ∈ db, b._id ≠ doc._id) ∧
      doc.title.truthy = true ∧ doc.author.truthy = true ∧ env.fault = none := by
  unfold Book.save at h
  split at h
  · cases h
  · rename_i hreq
    simp only [Bool.not_eq_true, Bool.not_eq_false, requiredOk] at hreq
    have hreq : doc.title.truthy = true ∧ doc.author.truthy = true := by
      simpa using hreq
    cases hf : env.fault with
    | some e => simp [hf] at h
    | none =>
      simp only [hf] at h
      split at h
      · cases h
      · rename_i hany
        injection h with h
        simp only [List.any_eq_true, Bool.or_eq_true, beq_iff_eq, not_exists, not_and,
          not_or] at hany
        exact ⟨h.symm, fun b hb => (hany b hb).1, hreq.1, hreq.2, rfl⟩

/-- Looking up the identifier of a freshly appended document finds it. -/
theorem find_append_new (db : List Book) (doc : Book) (h : ∀ b ∈ db, b._id ≠ doc._id) :
    (db ++ [doc]).find? (fun b => b._id == doc._id) = some doc := by
  induction db with
  | nil => simp
  | cons b bs ih =>
    have hb : (b._id == doc._id) = false := by
      simpa using h b (by simp)
    rw [List.cons_append, List.find?_cons, hb]
    exact ih (fun c hc => h c (by simp [hc]))

/-- Every document after a replacement is the new one or an old one. -/
theorem mem_replaceFirst (oid : String) (b2 : Book) (db : List Book) (c : Book)
    (h : c ∈ replaceFirst oid b2 db) : c = b2 ∨ c ∈ db := by
  induction db with
  | nil => simp [replaceFirst] at h
  | cons b bs ih =>
    unfold replaceFirst at h
    split at h
    · rcases List.mem_cons.mp h with h | h
      · exact Or.inl h
      · exact Or.inr (by simp [h])
    · rcases List.mem_cons.mp h with h | h
      · exact Or.inr (by simp [h])
      · rcases ih h with h | h
        · exact Or.inl h
        · exact Or.inr (by simp [h])

/-- Every document after a removal is an old one. -/
theorem mem_removeFirst (oid : String) (db : List Book) (c : Book)
    (h : c ∈ removeFirst oid db) : c ∈ db := by
  induction db with
  | nil => simp [removeFirst] at h
  | cons b bs ih =>
    unfold removeFirst at h
    split at h
    · simp [h]
    · rcases List.mem_cons.mp h with h | h
      · simp [h]
      · simp [ih h]

/-- After replacing the first match by a document with the same identifier, the
lookup returns the new document. -/
theorem find_replaceFirst (oid : String) (b b2 : Book) (db : List Book)
    (hb : db.find? (fun c => c._id == oid) = some b) (h2 : b2._id = oid) :
    (replaceFirst oid b2 db).find? (fun c => c._id == oid) = some b2 := by
  induction db with
  | nil => simp at hb
  | cons c cs ih =>
    unfold replaceFirst
    by_cases hc : c._id = oid
    · simp [hc, h2]
    · have hc2 : (c._id == oid) = false := by simp [hc]
      rw [List.find?_cons, hc2] at hb
      simp only [hc2, Bool.false_eq_true, if_false, List.find?_cons]
      exact ih hb

/-- A successful update call that finds no document changes nothing; one that
finds `b` replaces it by its update. -/
theorem findByIdAndUpdate_ok (D : Deps) (env : Env) (db : List Book) (id : String)
    (u : UpdateDoc) (db2 : List Book) (r : Option Book)
    (h : Book.findByIdAndUpdate D env db id u = .ok (db2, r)) :
    (r = none ∧ db2 = db) ∨
      ∃ oid b, D.castObjectId id = .ok oid ∧ db.find? (fun c => c._id == oid) = some b ∧
        r = some (applyUpdate D b u) ∧ db2 = replaceFirst oid (applyUpdate D b u) db := by
  unfold Book.findByIdAndUpdate at h
  cases hc : D.castObjectId id with
  | error e => simp [hc] at h
  | ok oid =>
    cases hf : env.fault with
    | some e => simp [hc, hf] at h
    | none =>
      cases hb : db.find? (fun c => c._id == oid) with
      | none =>
        simp only [hc, hf, hb] at h
        injection h with h
        injection h with h1 h2
        exact Or.inl ⟨h2.symm, h1.symm⟩
      | some b =>
        simp only [hc, hf, hb] at h
        split at h
        · cases h
        · injection h with h
          injection h with h1 h2
          exact Or.inr ⟨oid, b, rfl, hb, h2.symm, h1.symm⟩

/-- A successful remove call leaves only documents that were there. -/
theorem findByIdAndRemove_ok (D : Deps) (env : Env) (db : List Book) (id : String)
    (db2 : List Book) (r : Option Book)
    (h : Book.findByIdAndRemove D env db id = .ok (db2, r)) :
    ∀ c ∈ db2, c ∈ db := by
  unfold Book.findByIdAndRemove at h
  cases hc : D.castObjectId id with
  | error e => simp [hc] at h
  | ok oid =>
    cases hf : env.fault with
    | some e => simp [hc, hf] at h
    | none =>
      cases hb : db.find? (fun c => c._id == oid) with
      | none =>
        simp only [hc, hf, hb] at h
        injection h with h
        injection h with h1 h2
        intro c hcm; rw [← h1] at hcm; exact hcm
      | some b =>
        simp only [hc, hf, hb] at h
        injection h with h
        injection h with h1 h2
        intro c hcm; rw [← h1] at hcm; exact mem_removeFirst oid db c hcm

/-- The `catch` block of a write route never answers 200 or 201. -/
theorem catchWrite_status (err : JsError) :
    (catchWrite err).status = 400 ∨ (catchWrite err).status = 500 := by
  unfold catchWrite
  split
  · exact Or.inl rfl
  · exact Or.inr rfl

/-! ## C4: update without new blobs -/

/-- C4, counterexample: with a driver that drops `undefined` update keys, a
multipart update request with a new title, a non-empty author, no `isbn` and no
uploaded file, for the record of the sample collection, is answered 200 with a
record whose `isbn` is still the prior `9780441013593`, which is neither the
absent `isbn` of the request nor `null`. -/
theorem update_without_isbn_keeps_prior :
    updateBook sampleDepsOmit sampleEnv sampleDb sampleId
        ⟨⟨.str "Dune Messiah", .str "Herbert", .undefined⟩, some ⟨none, none⟩⟩ =
      ⟨⟨200, .record ⟨sampleId, .str "Dune Messiah", .str "Herbert", .str "9780441013593",
          .null, .null⟩⟩,
        [⟨sampleId, .str "Dune Messiah", .str "Herbert", .str "9780441013593", .null, .null⟩],
        [.findByIdAndUpdate]⟩ ∧
    (⟨⟨.str "Dune Messiah", .str "Herbert", .undefined⟩, some ⟨none, none⟩⟩ : Request).body.isbn =
      .undefined ∧
    (⟨sampleId, .str "Dune Messiah", .str "Herbert", .str "9780441013593", .null, .null⟩ :
      Book).isbn ≠ .undefined ∧
    (⟨sampleId, .str "Dune Messiah", .str "Herbert", .str "9780441013593", .null, .null⟩ :
      Book).isbn ≠ .null := by
  refine ⟨by decide, rfl, by decide, by decide⟩

/-- C4, amended: take a multipart update request with non-empty title and author
and no uploaded file, whose identifier matches the record `prior`. There is one
record `r` that the route can return with status 200; it has `coverImage` and
`file` equal to `null` whatever `prior` held, the title and the author of the
request, the identifier of `prior`, and as `isbn` the string of the request when
the request carries one, `null` when the request carries `null`, and, when the
request carries no `isbn`, the `isbn` of `prior` with a driver that drops
`undefined` update keys and `null` with one that writes them as `null`. The
route returns `r` whenever the backend answers and no other record holds the
`isbn` key of `r`; and whenever it returns a record with status 200, that record
is `r` and the collection is the old one with the first record under that
identifier replaced by `r`, so that a lookup of the identifier yields `r`. -/
theorem update_without_blobs (D : Deps) (env : Env) (db : List Book) (id oid : String)
    (prior : Book) (req : Request)
    (hfiles : req.files = some ⟨none, none⟩)
    (htitle : ∃ t, req.body.title = .str t ∧ t ≠ "")
    (hauthor : ∃ a, req.body.author = .str a ∧ a ≠ "")
    (hcast : D.castObjectId id = .ok oid)
    (hprior : db.find? (fun b => b._id == oid) = some prior) :
    ∃ r : Book,
      r.coverImage = .null ∧ r.file = .null ∧
      r.title = req.body.title ∧ r.author = req.body.author ∧
      r.isbn = (match req.body.isbn with
        | .str s => .str s
        | .null => .null
        | .undefined => if D.omitUndefined then prior.isbn else .null) ∧
      r._id = prior._id ∧
      (env.fault = none →
        (∀ c ∈ db, c._id ≠ oid → isbnKey c.isbn ≠ isbnKey r.isbn) →
        (updateBook D env db id req).response = ⟨200, .record r⟩) ∧
      (∀ r2, (updateBook D env db id req).response = ⟨200, .record r2⟩ →
        r2 = r ∧ (updateBook D env db id req).db = replaceFirst oid r db ∧
        (updateBook D env db id req).db.find? (fun b => b._id == oid) = some r) := by
  obtain ⟨t, ht, htne⟩ := htitle
  obtain ⟨a, ha, hane⟩ := hauthor
  have htt : req.body.title.truthy = true := (truthy_iff _).mpr ⟨t, ht, htne⟩
  have hat : req.body.author.truthy = true := (truthy_iff _).mpr ⟨a, ha, hane⟩
  have hid : prior._id = oid := by
    have := List.find?_some hprior
    simpa using this
  refine ⟨applyUpdate D prior ⟨req.body.title, req.body.author, req.body.isbn, .null, .null⟩,
    by simp [applyUpdate, setPath], by simp [applyUpdate, setPath],
    by simp [applyUpdate, setPath, ht], by simp [applyUpdate, setPath, ha], ?_, rfl, ?_, ?_⟩
  · cases hi : req.body.isbn <;> simp [applyUpdate, setPath, hi]
  · intro hfault hfree
    have hany : (db.any fun c => c._id != oid &&
        isbnKey c.isbn == isbnKey (applyUpdate D prior
          ⟨req.body.title, req.body.author, req.body.isbn, .null, .null⟩).isbn) = false := by
      rw [List.any_eq_false]
      intro c hc
      by_cases hco : c._id = oid
      · simp [hco]
      · simp [hco, hfree c hc hco]
    simp [updateBook, hfiles, htt, hat, uploadedName, Book.findByIdAndUpdate, hcast, hfault,
      hprior, hany]
  · intro r2 hr2
    cases hf : env.fault with
    | some e =>
      have hresp : (updateBook D env db id req).response = catchWrite e := by
        simp [updateBook, hfiles, htt, hat, uploadedName, Book.findByIdAndUpdate, hcast, hf]
      rw [hresp] at hr2
      have := catchWrite_status e
      rw [hr2] at this
      simp at this
    | none =>
      by_cases hany : (db.any fun c => c._id != oid &&
          isbnKey c.isbn == isbnKey (applyUpdate D prior
            ⟨req.body.title, req.body.author, req.body.isbn, .null, .null⟩).isbn) = true
      · have hresp : (updateBook D env db id req).response = catchWrite duplicateKey := by
          simp only [updateBook, hfiles, htt, hat, uploadedName, Book.findByIdAndUpdate, hcast, hf,
            hprior]
          simp [hany]
        rw [hresp] at hr2
        have := catchWrite_status duplicateKey
        rw [hr2] at this
        simp at this
      · have hout : updateBook D env db id req =
            ⟨⟨200, .record (applyUpdate D prior
                ⟨req.body.title, req.body.author, req.body.isbn, .null, .null⟩)⟩,
              replaceFirst oid (applyUpdate D prior
                ⟨req.body.title, req.body.author, req.body.isbn, .null, .null⟩) db,
              [.findByIdAndUpdate]⟩ := by
          simp only [updateBook, hfiles, htt, hat, uploadedName, Book.findByIdAndUpdate, hcast, hf,
            hprior]
          simp [hany]
        rw [hout] at hr2 ⊢
        simp only [Response.mk.injEq, Body.record.injEq, true_and] at hr2
        exact ⟨hr2.symm, rfl, find_replaceFirst oid prior _ db hprior hid⟩

/-- An instance of `update_without_blobs`: the record had both blobs set. -/
theorem update_without_blobs_witness :
    ∃ r : Book, r.coverImage = .null ∧ r.file = .null ∧ r.isbn = .str "9780441013593" ∧
      (updateBook sampleDeps sampleEnv
        [⟨sampleId, .str "Dune", .str "Herbert", .undefined, .str "1-c.png", .str "1-dune.epub"⟩]
        sampleId ⟨⟨.str "Dune Messiah", .str "Frank Herbert", .str "9780441013593"⟩,
          some ⟨none, none⟩⟩).response = ⟨200, .record r⟩ := by
  obtain ⟨r, h1, h2, _, _, h5, _, h7, _⟩ := update_without_blobs sampleDeps sampleEnv
    [⟨sampleId, .str "Dune", .str "Herbert", .undefined, .str "1-c.png", .str "1-dune.epub"⟩]
    sampleId sampleId
    ⟨sampleId, .str "Dune", .str "Herbert", .undefined, .str "1-c.png", .str "1-dune.epub"⟩
    ⟨⟨.str "Dune Messiah", .str "Frank Herbert", .str "9780441013593"⟩, some ⟨none, none⟩⟩
    rfl ⟨_, rfl, by decide⟩ ⟨_, rfl, by decide⟩ rfl rfl
  exact ⟨r, h1, h2, h5, h7 rfl (by simp)⟩

/-! ## C8: create, then get -/

/-- C8: when a create request is answered 201, the body is a record `r` that
carries the generated identifier, the title, author and `isbn` of the request,
and as `coverImage` and `file` the stored name of the uploaded blob, or `null`
where none was uploaded; a get-one request for `r._id` on the collection the
create left, with the backend answering, is answered 200 with `r` itself. -/
theorem create_then_get (D : Deps) (env env2 : Env) (db : List Book) (req : Request)
    (hcreated : (createBook env db req).response.status = 201)
    (hid : D.castObjectId env.newId = .ok env.newId)
    (hfault : env2.fault = none) :
    ∃ r files, (createBook env db req).response = ⟨201, .record r⟩ ∧
      req.files = some files ∧
      r._id = env.newId ∧
      r.title = req.body.title ∧ r.author = req.body.author ∧ r.isbn = req.body.isbn ∧
      r.coverImage = (match files.coverImage with
        | some p => .str (storedName p.receivedAt p.originalname)
        | none => .null) ∧
      r.file = (match files.file with
        | some p => .str (storedName p.receivedAt p.originalname)
        | none => .null) ∧
      (getBook D env2 (createBook env db req).db r._id).response = ⟨200, .record r⟩ := by
  unfold createBook at hcreated ⊢
  cases hv : (validationResult req.body).isEmpty with
  | false => simp [hv] at hcreated
  | true =>
    cases hfiles : req.files with
    | none =>
      simp [hv, hfiles, catchWrite, filesUndefined] at hcreated
    | some files =>
      cases hs : Book.save env db (newDocument env req.body files) with
      | error err =>
        simp only [hv, hfiles, hs] at hcreated
        have := catchWrite_status err
        simp at hcreated
        omega
      | ok db2 =>
        obtain ⟨hdb2, hfresh, _, _, _⟩ := save_ok env db _ db2 hs
        refine ⟨newDocument env req.body files, files, by simp [hv, hs], rfl, rfl, rfl, rfl, rfl,
          ?_, ?_, ?_⟩
        · cases hc : files.coverImage <;> simp [newDocument, uploadedName, hc, FilePart.filename]
        · cases hc : files.file <;> simp [newDocument, uploadedName, hc, FilePart.filename]
        · have hfind := find_append_new db (newDocument env req.body files) hfresh
          have hnid : (newDocument env req.body files)._id = env.newId := rfl
          rw [hnid] at hfind
          simp [hv, hs, getBook, Book.findById, hnid, hid, hfault, hdb2, hfind]

/-- An instance of `create_then_get`: a create request with an uploaded book
file on the sample collection. -/
theorem create_then_get_witness :
    ∃ r, (createBook sampleEnv sampleDb
        ⟨⟨.str "Emma", .str "Austen", .str "080442957X"⟩,
          some ⟨none, some ⟨"emma.epub", 1700000000000⟩⟩⟩).response = ⟨201, .record r⟩ ∧
      r.file = .str "1700000000000-emma.epub" ∧
      (getBook sampleDeps sampleEnv (createBook sampleEnv sampleDb
        ⟨⟨.str "Emma", .str "Austen", .str "080442957X"⟩,
          some ⟨none, some ⟨"emma.epub", 1700000000000⟩⟩⟩).db r._id).response =
        ⟨200, .record r⟩ := by
  obtain ⟨r, files, h1, h2, _, _, _, _, _, h8, h9⟩ := create_then_get sampleDeps sampleEnv sampleEnv
    sampleDb ⟨⟨.str "Emma", .str "Austen", .str "080442957X"⟩,
      some ⟨none, some ⟨"emma.epub", 1700000000000⟩⟩⟩ (by decide) rfl rfl
  refine ⟨r, h1, ?_, h9⟩
  simp only [Option.some.injEq] at h2
  subst h2
  rw [h8]
  simp only [Val.str.injEq]
  decide

/-! ## What each mutating route does to the collection -/

/-- The create route leaves the collection as it was, or appends the new document
of a multipart request that passed validation. -/
theorem createBook_db (env : Env) (db : List Book) (req : Request) :
    (createBook env db req).db = db ∨
      ∃ files, req.files = some files ∧ validationResult req.body = [] ∧
        (createBook env db req).db = db ++ [newDocument env req.body files] := by
  unfold createBook
  cases hv : validationResult req.body with
  | cons e es => left; simp
  | nil =>
    cases hfiles : req.files with
    | none => left; simp
    | some files =>
      cases hs : Book.save env db (newDocument env req.body files) with
      | error err => left; simp [hs]
      | ok db2 =>
        right
        exact ⟨files, rfl, rfl, by simpa [hs] using (save_ok env db _ db2 hs).1⟩

/-- The update route leaves the collection as it was, or replaces one record by
its update with the fields of a multipart request whose title and author are
truthy. -/
theorem updateBook_db (D : Deps) (env : Env) (db : List Book) (id : String) (req : Request) :
    (updateBook D env db id req).db = db ∨
      ∃ files oid b, req.files = some files ∧
        req.body.title.truthy = true ∧ req.body.author.truthy = true ∧
        db.find? (fun c => c._id == oid) = some b ∧
        (updateBook D env db id req).db =
          replaceFirst oid (applyUpdate D b ⟨req.body.title, req.body.author, req.body.isbn,
            uploadedName files.coverImage, uploadedName files.file⟩) db := by
  unfold updateBook
  cases hfiles : req.files with
  | none => left; simp
  | some files =>
    cases ht : req.body.title.truthy with
    | false => left; simp
    | true =>
      cases ha : req.body.author.truthy with
      | false => left; simp
      | true =>
        cases hu : Book.findByIdAndUpdate D env db id
            ⟨req.body.title, req.body.author, req.body.isbn,
              uploadedName files.coverImage, uploadedName files.file⟩ with
        | error err => left; simp [hu]
        | ok p =>
          obtain ⟨db2, r⟩ := p
          rcases findByIdAndUpdate_ok D env db id _ db2 r hu with ⟨hr, hdb⟩ | ⟨oid, b, _, hb, hr, hdb⟩
          · left; subst hr; simp [hu, hdb]
          · right
            refine ⟨files, oid, b, rfl, rfl, rfl, hb, ?_⟩
            subst hr
            simp [hu, hdb]

/-- The delete route leaves only records that were there. -/
theorem deleteBook_db (D : Deps) (env : Env) (db : List Book) (id : String) :
    ∀ c ∈ (deleteBook D env db id).db, c ∈ db := by
  unfold deleteBook
  cases hr : Book.findByIdAndRemove D env db id with
  | error err => intro c hc; simpa using hc
  | ok p =>
    obtain ⟨db2, r⟩ := p
    have := findByIdAndRemove_ok D env db id db2 r hr
    cases r <;> simpa using this

/-! ## Invariants of the collection -/

/-- Non-empty title and author on every record is preserved by every create,
update and delete request. -/
theorem step_preserves_names (D : Deps) (env : Env) (db : List Book) (m : Mutation)
    (h : ∀ b ∈ db, NamesOk b) : ∀ b ∈ (step D env db m).db, NamesOk b := by
  cases m with
  | create req =>
    simp only [step]
    rcases createBook_db env db req with hdb | ⟨files, _, hv, hdb⟩
    · rw [hdb]; exact h
    · rw [hdb]
      intro b hb
      rcases List.mem_append.mp hb with hb | hb
      · exact h b hb
      · simp only [List.mem_singleton] at hb
        subst hb
        obtain ⟨ht, ha, _⟩ := (validationResult_nil_iff req.body).mp hv
        exact ⟨(truthy_iff _).mp ht, (truthy_iff _).mp ha⟩
  | update id req =>
    simp only [step]
    rcases updateBook_db D env db id req with hdb | ⟨files, oid, b, _, ht, ha, _, hdb⟩
    · rw [hdb]; exact h
    · rw [hdb]
      intro c hc
      rcases mem_replaceFirst _ _ _ _ hc with hc | hc
      · subst hc
        obtain ⟨t, ht, htne⟩ := (truthy_iff _).mp ht
        obtain ⟨a, ha, hane⟩ := (truthy_iff _).mp ha
        exact ⟨⟨t, by simp [applyUpdate, setPath, ht], htne⟩,
          ⟨a, by simp [applyUpdate, setPath, ha], hane⟩⟩
      · exact h c hc
  | delete id =>
    simp only [step]
    intro b hb
    exact h b (deleteBook_db D env db id b hb)

/-- An absent or valid `isbn` on every record is preserved by every create and
every delete request, and by every update request whose `isbn` is absent or
valid. -/
theorem isbn_preserved_by_validated_writes (D : Deps) (env : Env) (db : List Book)
    (h : ∀ b ∈ db, IsbnOk b) :
    (∀ req, ∀ b ∈ (createBook env db req).db, IsbnOk b) ∧
    (∀ id, ∀ b ∈ (deleteBook D env db id).db, IsbnOk b) ∧
    (∀ id req, (req.body.isbn = .undefined ∨ req.body.isbn = .null ∨
        ∃ s, req.body.isbn = .str s ∧ isISBN s = true) →
      ∀ b ∈ (updateBook D env db id req).db, IsbnOk b) := by
  refine ⟨?_, ?_, ?_⟩
  · intro req
    rcases createBook_db env db req with hdb | ⟨files, _, hv, hdb⟩
    · rw [hdb]; exact h
    · rw [hdb]
      intro b hb
      rcases List.mem_append.mp hb with hb | hb
      · exact h b hb
      · simp only [List.mem_singleton] at hb
        subst hb
        obtain ⟨_, _, hi⟩ := (validationResult_nil_iff req.body).mp hv
        rcases checkIsbn_nil req.body hi with hi | hi
        · exact Or.inl hi
        · exact Or.inr (Or.inr hi)
  · intro id b hb
    exact h b (deleteBook_db D env db id b hb)
  · intro id req hreq
    rcases updateBook_db D env db id req with hdb | ⟨files, oid, b, _, _, _, hb, hdb⟩
    · rw [hdb]; exact h
    · rw [hdb]
      intro c hc
      rcases mem_replaceFirst _ _ _ _ hc with hc | hc
      · subst hc
        have hbo := h b (List.mem_of_find?_eq_some hb)
        rcases hreq with hu | hn | ⟨s, hs, hv⟩
        · cases ho : D.omitUndefined
          · exact Or.inr (Or.inl (by simp [applyUpdate, setPath, hu, ho]))
          · have : (applyUpdate D b ⟨req.body.title, req.body.author, req.body.isbn,
                uploadedName files.coverImage, uploadedName files.file⟩).isbn = b.isbn := by
              simp [applyUpdate, setPath, hu, ho]
            unfold IsbnOk
            rw [this]
            exact hbo
        · exact Or.inr (Or.inl (by simp [applyUpdate, setPath, hn]))
        · exact Or.inr (Or.inr ⟨s, by simp [applyUpdate, setPath, hs], hv⟩)
      · exact h c hc

/-! ## C5: an update request with a malformed ISBN -/

/-- C5, the code at the failing input: every record of the sample collection has
a valid `isbn`; a multipart update request for its record with the `isbn`
`not-an-isbn`, which is not a valid ISBN, is answered 200, and the record left in
the collection carries `not-an-isbn`, so the invariant is lost. -/
theorem update_stores_malformed_isbn :
    (∀ b ∈ sampleDb, IsbnOk b) ∧
    isISBN "not-an-isbn" = false ∧
    updateBook sampleDeps sampleEnv sampleDb sampleId
        ⟨⟨.str "Dune", .str "Herbert", .str "not-an-isbn"⟩, some ⟨none, none⟩⟩ =
      ⟨⟨200, .record ⟨sampleId, .str "Dune", .str "Herbert", .str "not-an-isbn", .null, .null⟩⟩,
        [⟨sampleId, .str "Dune", .str "Herbert", .str "not-an-isbn", .null, .null⟩],
        [.findByIdAndUpdate]⟩ ∧
    ¬ ∀ b ∈ (updateBook sampleDeps sampleEnv sampleDb sampleId
        ⟨⟨.str "Dune", .str "Herbert", .str "not-an-isbn"⟩, some ⟨none, none⟩⟩).db, IsbnOk b := by
  have hbad : isISBN "not-an-isbn" = false := by decide
  have hout : updateBook sampleDeps sampleEnv sampleDb sampleId
        ⟨⟨.str "Dune", .str "Herbert", .str "not-an-isbn"⟩, some ⟨none, none⟩⟩ =
      ⟨⟨200, .record ⟨sampleId, .str "Dune", .str "Herbert", .str "not-an-isbn", .null, .null⟩⟩,
        [⟨sampleId, .str "Dune", .str "Herbert", .str "not-an-isbn", .null, .null⟩],
        [.findByIdAndUpdate]⟩ := by decide
  refine ⟨?_, hbad, hout, ?_⟩
  · intro b hb
    simp only [sampleDb, List.mem_singleton] at hb
    subst hb
    exact Or.inr (Or.inr ⟨"9780441013593", rfl, by decide⟩)
  · rw [hout]
    intro hall
    have := hall _ (List.mem_singleton.mpr rfl)
    rcases this with h | h | ⟨s, hs, hv⟩
    · cases h
    · cases h
    · simp only [Val.str.injEq] at hs
      rw [← hs, hbad] at hv
      cases hv

/-! ## C6: an update request that is not multipart -/

/-- C6, the code at the failing input: an update request with a JSON body that
has an author and no title is answered 500 with the message of the `TypeError`
thrown when `req.files` is read, not 400; the collection is left as it was. The
same fields sent as a multipart form are answered 400. -/
theorem update_json_blank_title_is_500 :
    updateBook sampleDeps sampleEnv sampleDb sampleId
        ⟨⟨.undefined, .str "Herbert", .undefined⟩, none⟩ =
      ⟨⟨500, .error "Cannot read properties of undefined (reading 'coverImage')"⟩, sampleDb, []⟩ ∧
    (updateBook sampleDeps sampleEnv sampleDb sampleId
        ⟨⟨.undefined, .str "Herbert", .undefined⟩, none⟩).response.status ≠ 400 ∧
    updateBook sampleDeps sampleEnv sampleDb sampleId
        ⟨⟨.undefined, .str "Herbert", .undefined⟩, some ⟨none, none⟩⟩ =
      ⟨⟨400, .error "Title and author are required"⟩, sampleDb, []⟩ := by
  refine ⟨by decide, by decide, by decide⟩

end EbookApi
